import Mathlib

/-!
# Model of the project-tracking web application

A shallow embedding of the application's data model, validation chains,
route handlers and middleware guards, together with theorems about their
behaviour.  Each definition is translated from the corresponding
JavaScript source file (noted in its doc comment); session and database
effects are made explicit by passing state in and out of the handlers.
-/

namespace PMApp

/-- A row of the `users` table (`database/createTables.js`): unique id,
unique username, unique email, password hash. -/
structure User where
  uid : Nat
  username : String
  email : String
  password : String
deriving Repr, DecidableEq

/-- A row of the `projects` table (`database/createTables.js`).  Date
columns are modelled by their parsed JavaScript `Date` value (an integer
timestamp); `end_date` is nullable.  `phase` is a string drawn from the
ENUM domain. -/
structure Project where
  pid : Nat
  title : String
  short_description : String
  start_date : Option Int
  end_date : Option Int
  phase : String
  uid : Nat
deriving Repr, DecidableEq

/-- The user object stored in `req.session.user` (set at login and at
registration in `routes/auth.js`). -/
structure SessionUser where
  uid : Nat
  username : String
  email : String
deriving Repr, DecidableEq

/-- External libraries used by the handlers (`validator` / `bcryptjs`),
abstracted as function parameters: the handlers are proved correct for
every implementation of these. -/
structure Libs where
  isEmail : String → Bool
  normalizeEmail : String → String
  bcryptHash : String → String
  bcryptCompare : String → String → Bool

/-- A concrete stand-in for the external libraries, used to evaluate the
handlers on closed inputs. -/
def demoLibs : Libs where
  isEmail := fun s => s.data.contains '@'
  normalizeEmail := fun s => s
  bcryptHash := fun s => "hash:" ++ s
  bcryptCompare := fun p h => h = "hash:" ++ p

/-- Strip leading whitespace from a character list. -/
def trimLeftChars : List Char → List Char
  | [] => []
  | c :: cs => if c.isWhitespace then trimLeftChars cs else c :: cs

/-- The JavaScript `String.prototype.trim`: strip whitespace from both
ends of the string. -/
def jsTrim (s : String) : String :=
  String.mk ((trimLeftChars (trimLeftChars s.data).reverse).reverse)

/-- The responses the embedded routes produce.  `render` carries the HTTP
status, the view name and the list of error messages handed to the view;
`renderProject` is a `render` of a project-details view carrying the
project row and the joined user columns; `redirect` is an Express
`res.redirect` (status 302); the `json*` constructors are the JSON
responses. -/
inductive Resp where
  | render (status : Nat) (view : String) (errors : List String)
  | renderProject (status : Nat) (view : String) (p : Project)
      (username : String) (email : String) (canEdit : Bool)
  | redirect (loc : String)
  | jsonError (status : Nat) (msg : String)
  | jsonProject (p : Project)
deriving Repr, DecidableEq

/-- Flash message left in the session by a handler. -/
inductive Flash where
  | noMsg
  | error (msg : String)
  | success (msg : String)
deriving Repr, DecidableEq

/-! ## Registration and login (`routes/auth.js`) -/

/-- The JavaScript regex `/^[a-zA-Z0-9_]+$/` of the username rule. -/
def usernameCharsOk (s : String) : Bool :=
  s.length > 0 && s.data.all (fun c => c.isAlphanum || c == '_')

/-- The JavaScript regex `/^(?=.*[a-z])(?=.*[A-Z])(?=.*\d)/` of the
password rule. -/
def passwordCharsOk (s : String) : Bool :=
  s.data.any Char.isLower && s.data.any Char.isUpper && s.data.any Char.isDigit

/-- The body of a POST `/register` request. -/
structure RegisterBody where
  username : String
  email : String
  password : String
  confirmPassword : String
deriving Repr, DecidableEq

/-- `registerValidation` (`routes/auth.js` lines 7-34): the accumulated
error messages of the four validation chains.  The `.trim()` sanitizers
are applied to the checked values as in the source. -/
def registerValidationErrors (libs : Libs) (b : RegisterBody) : List String :=
  let username := jsTrim b.username
  (if 3 ≤ username.length ∧ username.length ≤ 50 then []
   else ["Username must be between 3 and 50 characters"]) ++
  (if usernameCharsOk username then []
   else ["Username can only contain letters, numbers, and underscores"]) ++
  (if libs.isEmail (jsTrim b.email) then []
   else ["Please provide a valid email address"]) ++
  (if 6 ≤ b.password.length then []
   else ["Password must be at least 6 characters long"]) ++
  (if passwordCharsOk b.password then []
   else ["Password must contain at least one lowercase letter, one uppercase letter, and one number"]) ++
  (if b.confirmPassword = b.password then []
   else ["Passwords do not match"])

/-- POST `/register` (`routes/auth.js` lines 73-128), preceded by the
`requireGuest` middleware as mounted.  After the validation chain the
body's `username` is the trimmed input and `email` the normalized trimmed
input; the handler trims them again, checks uniqueness, and inserts the
new row.  Returns the response together with the resulting `users`
table. -/
def registerRoute (libs : Libs) (sess : Option SessionUser)
    (users : List User) (nextUid : Nat) (b : RegisterBody) :
    Resp × List User :=
  match sess with
  | some _ => (Resp.redirect "/dashboard", users)
  | none =>
    let errors := registerValidationErrors libs b
    let username := jsTrim b.username
    let email := libs.normalizeEmail (jsTrim b.email)
    if errors ≠ [] then
      (Resp.render 200 "register" errors, users)
    else if users.any (fun u => u.username == jsTrim username || u.email == jsTrim email) then
      (Resp.render 200 "register" ["Username or email already exists"], users)
    else
      (Resp.redirect "/dashboard",
       users ++ [⟨nextUid, jsTrim username, jsTrim email, libs.bcryptHash b.password⟩])

/-- The body of a POST `/login` request. -/
structure LoginBody where
  username : String
  password : String
deriving Repr, DecidableEq

/-- `loginValidation` (`routes/auth.js` lines 36-45). -/
def loginValidationErrors (b : LoginBody) : List String :=
  (if jsTrim b.username = "" then ["Username is required"] else []) ++
  (if b.password = "" then ["Password is required"] else [])

/-- `SELECT * FROM users WHERE username = ?`. -/
def findUserByUsername (users : List User) (uname : String) : Option User :=
  users.find? (fun u => u.username == uname)

/-- POST `/login` (`routes/auth.js` lines 140-200), preceded by the
`requireGuest` middleware as mounted.  `returnTo` is the session's
stored return URL. -/
def loginRoute (libs : Libs) (sess : Option SessionUser)
    (returnTo : Option String) (users : List User) (b : LoginBody) : Resp :=
  match sess with
  | some _ => Resp.redirect "/dashboard"
  | none =>
    if loginValidationErrors b ≠ [] then
      Resp.render 200 "login" ["Please provide valid username and password"]
    else
      match findUserByUsername users (jsTrim b.username) with
      | none => Resp.render 200 "login" ["Invalid username or password"]
      | some u =>
        if libs.bcryptCompare b.password u.password then
          Resp.redirect (returnTo.getD "/dashboard")
        else
          Resp.render 200 "login" ["Invalid username or password"]

/-! ## Project routes (`routes/project.js`) -/

/-- The ENUM domain of `phase` (`database/createTables.js`,
`projectValidation` in `routes/project.js`). -/
def validPhases : List String :=
  ["design", "development", "testing", "deployment", "complete"]

/-- The body of a project creation or edit request.  The date fields
carry the parsed `Date` value of the submitted string (`none` for an
absent or empty field; a string that fails the `isISO8601` check never
reaches the date comparison with a defined value). -/
structure ProjectBody where
  title : String
  short_description : String
  start_date : Option Int
  end_date : Option Int
  phase : String
deriving Repr, DecidableEq

/-- The `end_date` chain of `projectValidation` (`routes/project.js`
lines 24-33): optional with `checkFalsy`, and a custom rule raising
`End date must be after start date` when both dates are present and
`new Date(end) <= new Date(start)`. -/
def endDateErrors (b : ProjectBody) : List String :=
  match b.end_date with
  | none => []
  | some e =>
    match b.start_date with
    | none => []
    | some s => if e ≤ s then ["End date must be after start date"] else []

/-- `projectValidation` (`routes/project.js` lines 9-38): the accumulated
error messages of the five validation chains. -/
def projectValidationErrors (b : ProjectBody) : List String :=
  let title := jsTrim b.title
  let desc := jsTrim b.short_description
  (if 3 ≤ title.length ∧ title.length ≤ 100 then []
   else ["Project title must be between 3 and 100 characters"]) ++
  (if 10 ≤ desc.length ∧ desc.length ≤ 500 then []
   else ["Short description must be between 10 and 500 characters"]) ++
  (if b.start_date.isSome then [] else ["Please provide a valid start date"]) ++
  endDateErrors b ++
  (if b.phase ∈ validPhases then [] else ["Please select a valid phase"])

/-- POST `/add-project` (`routes/project.js` lines 162-209), after
`requireAuth` has resolved the session user `uid`.  On validation
failure the form is re-rendered and no row is inserted; otherwise the
project is inserted (`nextPid` is the AUTO_INCREMENT id). -/
def addProjectHandler (ps : List Project) (uid nextPid : Nat)
    (b : ProjectBody) : Resp × List Project :=
  let errors := projectValidationErrors b
  if errors ≠ [] then
    (Resp.render 200 "add-project" errors, ps)
  else
    (Resp.redirect "/dashboard",
     ps ++ [⟨nextPid, jsTrim (jsTrim b.title), jsTrim (jsTrim b.short_description),
             b.start_date, b.end_date, b.phase, uid⟩])

/-- POST `/edit-project/:id` (`routes/project.js` lines 242-301), after
`requireAuth`.  The handler first runs the ownership check query
`SELECT * FROM projects WHERE pid = ? AND uid = ?` and redirects when it
returns no row; then it reports validation errors; otherwise it runs
`UPDATE ... WHERE pid = ? AND uid = ?`. -/
def editProjectHandler (ps : List Project) (uid pid : Nat)
    (b : ProjectBody) : Resp × List Project × Flash :=
  let errors := projectValidationErrors b
  let owned := ps.filter (fun p => p.pid == pid && p.uid == uid)
  if owned.length = 0 then
    (Resp.redirect "/dashboard", ps,
     Flash.error "Project not found or you do not have permission to edit it.")
  else if errors ≠ [] then
    (Resp.render 200 "edit-project" errors, ps, Flash.noMsg)
  else
    (Resp.redirect "/dashboard",
     ps.map (fun p =>
       if p.pid == pid && p.uid == uid then
         { p with title := jsTrim (jsTrim b.title),
                  short_description := jsTrim (jsTrim b.short_description),
                  start_date := b.start_date,
                  end_date := b.end_date,
                  phase := b.phase }
       else p),
     Flash.success "Project updated successfully!")

/-- POST `/delete-project/:id` (`routes/project.js` lines 304-325), after
`requireAuth`: `DELETE FROM projects WHERE pid = ? AND uid = ?`, then a
redirect to the dashboard with a flash message chosen by the number of
affected rows. -/
def deleteProjectHandler (ps : List Project) (uid pid : Nat) :
    Resp × List Project × Flash :=
  let remaining := ps.filter (fun p => !(p.pid == pid && p.uid == uid))
  if ps.length - remaining.length = 0 then
    (Resp.redirect "/dashboard", remaining,
     Flash.error "Project not found or you do not have permission to delete it.")
  else
    (Resp.redirect "/dashboard", remaining,
     Flash.success "Project deleted successfully!")

/-- The parts of a mutating request that the middleware chain can look
at: the session user, the session's stored CSRF token, and the CSRF
token carried in the `_csrf` body field or the `x-csrf-token` header. -/
structure MutReq where
  sessionUser : Option SessionUser
  sessionCsrfToken : Option String
  bodyCsrf : Option String
  headerCsrf : Option String
deriving Repr, DecidableEq

/-- The middleware chain that `app.js` and `routes/project.js` mount in
front of the delete handler: `requireAuth` (`routes/auth.js` lines
48-53) and nothing else — in particular no CSRF middleware appears in
the chain.  An anonymous session is redirected to `/login`. -/
def deleteProjectRoute (req : MutReq) (ps : List Project) (pid : Nat) :
    Resp × List Project × Flash :=
  match req.sessionUser with
  | none => (Resp.redirect "/login", ps, Flash.noMsg)
  | some su => deleteProjectHandler ps su.uid pid

/-- The mounted middleware chain of POST `/edit-project/:id`:
`requireAuth`, then `projectValidation`, then the handler; again no
CSRF middleware. -/
def editProjectRoute (req : MutReq) (ps : List Project) (pid : Nat)
    (b : ProjectBody) : Resp × List Project × Flash :=
  match req.sessionUser with
  | none => (Resp.redirect "/login", ps, Flash.noMsg)
  | some su => editProjectHandler ps su.uid pid b

/-- `validateCSRFToken` (`middleware/auth.js` lines 163-184): skip GET
requests; otherwise compare the session token with
`req.body._csrf || req.headers['x-csrf-token']` and answer 403 on a
missing or mismatched token.  `none` means the middleware calls
`next()`.  This middleware is exported but mounted on no route. -/
def validateCSRFToken (method : String) (req : MutReq) (isJson : Bool) :
    Option Resp :=
  if method = "GET" then none
  else
    match req.sessionCsrfToken, req.bodyCsrf.orElse (fun _ => req.headerCsrf) with
    | some st, some rt =>
      if st = rt then none
      else if isJson then some (Resp.jsonError 403 "Invalid CSRF token")
      else some (Resp.render 403 "error" ["Invalid security token. Please try again."])
    | _, _ =>
      if isJson then some (Resp.jsonError 403 "Invalid CSRF token")
      else some (Resp.render 403 "error" ["Invalid security token. Please try again."])

/-! ## Public reads (`routes/public.js`, `routes/project.js`) -/

/-- GET `/project/:id` (`routes/public.js` lines 442-501, the instance
that wins the mounting order in `app.js`): a public read joining the
owner's user row; no authentication middleware is mounted.  `canEdit`
is `req.session.user && req.session.user.uid === project.uid`. -/
def getProjectPublic (users : List User) (ps : List Project)
    (sess : Option SessionUser) (pid : Nat) : Resp :=
  match ps.find? (fun p => p.pid == pid) with
  | none => Resp.render 404 "error" ["The requested project could not be found."]
  | some p =>
    match users.find? (fun u => u.uid == p.uid) with
    | none => Resp.render 404 "error" ["The requested project could not be found."]
    | some u =>
      Resp.renderProject 200 "project-details" p u.username u.email
        (match sess with
         | some su => su.uid == p.uid
         | none => false)

/-- GET `/api/projects/:id` (`routes/project.js` lines 328-344): mounted
behind `requireAuth`, and its query is
`SELECT * FROM projects WHERE pid = ? AND uid = ?`, so it answers 404
unless the session user owns the project. -/
def apiGetProject (sess : Option SessionUser) (ps : List Project)
    (pid : Nat) : Resp :=
  match sess with
  | none => Resp.redirect "/login"
  | some su =>
    match ps.find? (fun p => p.pid == pid && p.uid == su.uid) with
    | none => Resp.jsonError 404 "Project not found"
    | some p => Resp.jsonProject p

/-! ## Rate limiter (`middleware/auth.js` lines 187-235) -/

/-- One value of the in-memory `attempts` map: the attempt count and the
timestamp of the first attempt of the current window. -/
structure AttemptEntry where
  count : Nat
  firstAttempt : Nat
deriving Repr, DecidableEq

/-- The in-memory `attempts` map, keyed by client network address. -/
abbrev AttemptMap := List (String × AttemptEntry)

/-- The clean-up loop at the top of the `authRateLimit` middleware: every
entry whose window has rolled over (`now - firstAttempt > windowMs`) is
deleted. -/
def cleanupAttempts (windowMs now : Nat) (m : AttemptMap) : AttemptMap :=
  m.filter (fun kv => decide (now - kv.2.firstAttempt ≤ windowMs))

/-- The decision the middleware takes on one request: pass it through,
or reject it with a 429 JSON body or a re-rendered login view, both
carrying the `timeLeft` retry-after hint in minutes. -/
inductive RLDecision where
  | allowed
  | blocked (isJson : Bool) (timeLeftMinutes : Nat)
deriving Repr, DecidableEq

/-- `Math.ceil(ms / 1000 / 60)`. -/
def jsCeilMinutes (ms : Nat) : Nat := (ms + 59999) / 60000

/-- One request through the `authRateLimit` middleware: clean up stale
entries, then reject when the caller's entry has reached `maxAttempts`,
with `timeLeft = Math.ceil((windowMs - (now - firstAttempt))/1000/60)`.
Returns the decision and the map as left by the middleware (the
`recordFailedAttempt` / `clearFailedAttempts` callbacks are modelled
separately). -/
def authRateLimitStep (maxAttempts windowMs : Nat) (attempts : AttemptMap)
    (ip : String) (now : Nat) (isJson : Bool) : RLDecision × AttemptMap :=
  let cleaned := cleanupAttempts windowMs now attempts
  match cleaned.lookup ip with
  | some e =>
    if maxAttempts ≤ e.count then
      (RLDecision.blocked isJson (jsCeilMinutes (windowMs - (now - e.firstAttempt))), cleaned)
    else (RLDecision.allowed, cleaned)
  | none => (RLDecision.allowed, cleaned)

/-- `req.recordFailedAttempt` (`middleware/auth.js` lines 220-226),
applied to the map as the middleware left it: create the entry with
count 1, or increment the existing count. -/
def recordFailedAttempt (attempts : AttemptMap) (ip : String) (now : Nat) :
    AttemptMap :=
  match attempts.lookup ip with
  | none => (ip, ⟨1, now⟩) :: attempts
  | some e =>
    attempts.map (fun kv => if kv.1 = ip then (ip, ⟨e.count + 1, e.firstAttempt⟩) else kv)

/-! ## Per-user project cap (`middleware/validation.js` lines 293-321) -/

/-- The decision of the `maxProjectsPerUser` guard. -/
inductive GuardResult where
  | next
  | blockedJson (status : Nat) (msg : String)
  | blockedRedirect (loc : String) (errorMessage : String)
deriving Repr, DecidableEq

/-- `const maxProjects = 50` in `customValidations.maxProjectsPerUser`. -/
def maxProjects : Nat := 50

/-- `customValidations.maxProjectsPerUser`: for an authenticated session
whose project count has reached the limit, answer 400 JSON or redirect
to the dashboard with an error message; otherwise call `next()`.
`projectCount` is the result of the
`SELECT COUNT(*) FROM projects WHERE uid = ?` query. -/
def maxProjectsPerUser (sess : Option SessionUser) (projectCount : Nat)
    (isJson : Bool) : GuardResult :=
  match sess with
  | none => GuardResult.next
  | some _ =>
    if maxProjects ≤ projectCount then
      if isJson then
        GuardResult.blockedJson 400 s!"Maximum number of projects ({maxProjects}) reached"
      else
        GuardResult.blockedRedirect "/dashboard"
          s!"You have reached the maximum number of projects ({maxProjects})."
    else GuardResult.next

/-- A creation request running behind the guard: the project count after
the request is incremented exactly when the guard passed the request
through to the insert. -/
def guardedAddProject (sess : Option SessionUser) (projectCount : Nat)
    (isJson : Bool) : Nat :=
  match maxProjectsPerUser sess projectCount isJson with
  | GuardResult.next => projectCount + 1
  | _ => projectCount

/-! ## Schema bootstrap (`database/setup.js` and friends) -/

/-- The tables of one database: `none` means the table does not exist,
`some rows` an existing table with its rows. -/
structure DbState where
  users : Option (List User)
  projects : Option (List Project)
deriving Repr, DecidableEq

/-- The MySQL server state: databases by name. -/
abbrev Store := List (String × DbState)

/-- `CREATE DATABASE IF NOT EXISTS` (`database/createDatabase.js`). -/
def createDatabase (store : Store) (name : String) : Store :=
  match store.lookup name with
  | some _ => store
  | none => store ++ [(name, { users := none, projects := none })]

/-- `CREATE TABLE IF NOT EXISTS users` (`database/createTables.js`). -/
def ensureUsersTable (db : DbState) : DbState :=
  match db.users with
  | some _ => db
  | none => { db with users := some [] }

/-- `CREATE TABLE IF NOT EXISTS projects` (`database/createTables.js`). -/
def ensureProjectsTable (db : DbState) : DbState :=
  match db.projects with
  | some _ => db
  | none => { db with projects := some [] }

/-- `createTables` (`database/createTables.js` lines 2-41): the two
`CREATE TABLE IF NOT EXISTS` statements against the named database. -/
def createTables (store : Store) (name : String) : Store :=
  store.map (fun kv =>
    if kv.1 = name then (kv.1, ensureProjectsTable (ensureUsersTable kv.2)) else kv)

/-- The seeded test user of `database/sampleData.js` (uid 1 on a fresh
store; the password hash of the generated random password is a
parameter). -/
def sampleUser (hashedPassword : String) : User :=
  ⟨1, "testuser", "test@example.com", hashedPassword⟩

/-- The three seeded projects of `database/sampleData.js` (pids 1-3 and
uid 1 on a fresh store; the DATE strings are written as their parsed
values). -/
def sampleProjects : List Project :=
  [⟨1, "E-commerce Site", "Online shopping platform with payment integration",
    some 20240201, none, "development", 1⟩,
   ⟨2, "Task Manager App", "Mobile app for personal task management",
    some 20240115, none, "testing", 1⟩,
   ⟨3, "Legacy Migration", "Moving old system to modern database",
    some 20231210, none, "complete", 1⟩]

/-- `addSampleData` (`database/sampleData.js` lines 10-18 and onward):
count the rows of `users` and return untouched when data exists;
otherwise seed the test user and the three sample projects. -/
def addSampleData (store : Store) (name hashedPassword : String) : Store :=
  match store.lookup name with
  | none => store
  | some db =>
    match db.users with
    | none => store
    | some us =>
      if 0 < us.length then store
      else
        store.map (fun kv =>
          if kv.1 = name then
            (kv.1, { kv.2 with
                     users := some (us ++ [sampleUser hashedPassword]),
                     projects := kv.2.projects.map (fun ps => ps ++ sampleProjects) })
          else kv)

/-- `setupDatabase` (`database/setup.js` lines 7-44): create the
database, create the tables, seed the sample data. -/
def setupDatabase (store : Store) (name hashedPassword : String) : Store :=
  addSampleData (createTables (createDatabase store name) name) name hashedPassword

/-! ## Shared helper lemmas -/

/-- A key that occurs in no pair of an association list looks up to
`none`. -/
lemma lookup_eq_none_of_not_mem_keys {α β : Type} [BEq α] [LawfulBEq α]
    {l : List (α × β)} {k : α} (h : k ∉ l.map Prod.fst) : l.lookup k = none := by
  induction l with
  | nil => rfl
  | cons a t ih =>
    obtain ⟨a1, a2⟩ := a
    simp only [List.map_cons, List.mem_cons, not_or] at h
    rw [List.lookup_cons]
    simp [beq_false_of_ne h.1, ih h.2]

/-- On an association list with distinct keys, looking up in a filtered
list finds the original entry exactly when the filter keeps it. -/
lemma lookup_filter_nodup {α β : Type} [BEq α] [LawfulBEq α]
    {l : List (α × β)} (hnd : (l.map Prod.fst).Nodup) (p : α × β → Bool) (k : α) :
    (l.filter p).lookup k =
      match l.lookup k with
      | some v => if p (k, v) then some v else none
      | none => none := by
  induction l with
  | nil => rfl
  | cons a t ih =>
    obtain ⟨a1, a2⟩ := a
    simp only [List.map_cons, List.nodup_cons] at hnd
    by_cases hk : k = a1
    · subst hk
      by_cases hp : p (k, a2)
      · simp [List.filter_cons, hp, List.lookup_cons_self]
      · have hnone : (t.filter p).lookup k = none := by
          refine lookup_eq_none_of_not_mem_keys (fun hx => hnd.1 ?_)
          exact List.map_subset Prod.fst (fun x hx' => List.mem_of_mem_filter hx') hx
        simp [List.filter_cons, hp, List.lookup_cons_self, hnone]
    · have hbeq : (k == a1) = false := beq_false_of_ne hk
      by_cases hp : p (a1, a2)
      · rw [List.filter_cons, if_pos hp, List.lookup_cons, List.lookup_cons]
        simp only [hbeq]
        exact ih hnd.2
      · rw [List.filter_cons, if_neg hp, List.lookup_cons]
        simp only [hbeq]
        exact ih hnd.2

/-- On an association list with distinct keys, every pair carrying the
looked-up key carries the looked-up value. -/
lemma lookup_unique {α β : Type} [BEq α] [LawfulBEq α]
    {l : List (α × β)} {k : α} {v : β} (hnd : (l.map Prod.fst).Nodup)
    (h : l.lookup k = some v) : ∀ kv ∈ l, kv.1 = k → kv.2 = v := by
  induction l with
  | nil => simp
  | cons a t ih =>
    obtain ⟨a1, a2⟩ := a
    simp only [List.map_cons, List.nodup_cons] at hnd
    intro kv hkv hk
    rw [List.lookup_cons] at h
    by_cases hka : k = a1
    · subst hka
      simp only [beq_self_eq_true] at h
      have ha2 : a2 = v := by injection h
      rcases List.mem_cons.mp hkv with rfl | hmem
      · exact ha2
      · exact absurd (hk ▸ List.mem_map_of_mem Prod.fst hmem) hnd.1
    · simp only [beq_false_of_ne hka] at h
      rcases List.mem_cons.mp hkv with rfl | hmem
      · exact absurd hk.symm hka
      · exact ih hnd.2 h kv hmem hk

/-- Mapping a function that fixes every element of a list is the
identity. -/
lemma map_eq_self_of_fixed {α : Type} {l : List α} {f : α → α}
    (h : ∀ x ∈ l, f x = x) : l.map f = l := by
  induction l with
  | nil => rfl
  | cons a t ih =>
    simp only [List.map_cons]
    rw [h a (List.mem_cons_self a t), ih (fun x hx => h x (List.mem_cons_of_mem a hx))]

/-! ## C1: CSRF enforcement on mutating requests -/

/-- A project row used to evaluate the routes on concrete inputs. -/
def projAlice : Project :=
  ⟨1, "E-commerce Site", "Online shopping platform", some 100, none, "design", 1⟩

/-- C1: the application does not enforce CSRF on mutating requests.  The
`validateCSRFToken` middleware, run on a POST request that carries no
`_csrf` field and no `x-csrf-token` header, would answer 403 — but the
middleware chain actually mounted in front of POST `/delete-project/:id`
contains no CSRF check, so the very same request reaches the handler and
deletes the row. -/
theorem csrf_not_enforced_on_mutation :
    validateCSRFToken "POST"
        ⟨some ⟨1, "alice", "alice@example.com"⟩, some "f00d", none, none⟩ false
      = some (Resp.render 403 "error" ["Invalid security token. Please try again."]) ∧
    deleteProjectRoute
        ⟨some ⟨1, "alice", "alice@example.com"⟩, some "f00d", none, none⟩ [projAlice] 1
      = (Resp.redirect "/dashboard", [], Flash.success "Project deleted successfully!") := by
  constructor <;> decide

/-! ## C2: non-owner mutations leave the table unchanged -/

/-- C2: a POST `/edit-project/:id` or POST `/delete-project/:id` request
from an authenticated session that does not own the targeted project
gets a redirect, and the `projects` table is unchanged — every row,
not only the targeted one. -/
theorem non_owner_mutation_unchanged (su : SessionUser) (ps : List Project)
    (pid : Nat) (b : ProjectBody) (ct cb ch : Option String)
    (hex : ∃ p ∈ ps, p.pid = pid)
    (hno : ∀ p ∈ ps, p.pid = pid → p.uid ≠ su.uid) :
    deleteProjectRoute ⟨some su, ct, cb, ch⟩ ps pid =
      (Resp.redirect "/dashboard", ps,
       Flash.error "Project not found or you do not have permission to delete it.") ∧
    editProjectRoute ⟨some su, ct, cb, ch⟩ ps pid b =
      (Resp.redirect "/dashboard", ps,
       Flash.error "Project not found or you do not have permission to edit it.") := by
  have hkeep : ∀ p ∈ ps, (!(p.pid == pid && p.uid == su.uid)) = true := by
    intro p hp
    by_cases hpid : p.pid = pid
    · simp [beq_false_of_ne (hno p hp hpid)]
    · simp [beq_false_of_ne hpid]
  have hfilter : ps.filter (fun p => !(p.pid == pid && p.uid == su.uid)) = ps :=
    List.filter_eq_self.mpr hkeep
  have hempty : ps.filter (fun p => p.pid == pid && p.uid == su.uid) = [] := by
    refine List.filter_eq_nil_iff.mpr (fun p hp => ?_)
    have h1 : (p.pid == pid && p.uid == su.uid) = false := by
      have h2 := hkeep p hp
      cases hb : (p.pid == pid && p.uid == su.uid)
      · rfl
      · rw [hb] at h2
        exact absurd h2 (by decide)
    rw [h1]
    simp
  constructor
  · simp only [deleteProjectRoute, deleteProjectHandler]
    rw [hfilter]
    simp
  · simp only [editProjectRoute, editProjectHandler]
    rw [hempty]
    simp

/-- Witness for C2 at a concrete non-owner session. -/
theorem non_owner_mutation_unchanged_witness :
    deleteProjectRoute ⟨some ⟨2, "bob", "bob@example.com"⟩, none, none, none⟩ [projAlice] 1 =
      (Resp.redirect "/dashboard", [projAlice],
       Flash.error "Project not found or you do not have permission to delete it.") :=
  (non_owner_mutation_unchanged ⟨2, "bob", "bob@example.com"⟩ [projAlice] 1
    ⟨"Valid Title", "A long enough description", some 1, none, "design"⟩ none none none
    ⟨projAlice, by simp, by decide⟩
    (by
      intro p hp hpid
      have : p = projAlice := by simpa using hp
      subst this
      decide)).1

/-! ## C3: registration against an existing username or email -/

/-- A user row used to evaluate the routes on concrete inputs. -/
def alice : User := ⟨1, "alice", "alice@example.com", "hash:Secret1"⟩

/-- C3 counterexample: a registration request whose username already
exists but whose password fails field validation is answered with the
validation errors, not with the uniqueness error message — the claim
that every such request "responds with a uniqueness error message" is
false as stated (the table is still left unchanged). -/
theorem register_duplicate_counterexample :
    (registerRoute demoLibs none [alice] 2 ⟨"alice", "alice@example.com", "x", "x"⟩).1 =
      Resp.render 200 "register"
        ["Password must be at least 6 characters long",
         "Password must contain at least one lowercase letter, one uppercase letter, and one number"] ∧
    (registerRoute demoLibs none [alice] 2 ⟨"alice", "alice@example.com", "x", "x"⟩).1 ≠
      Resp.render 200 "register" ["Username or email already exists"] ∧
    (registerRoute demoLibs none [alice] 2 ⟨"alice", "alice@example.com", "x", "x"⟩).2 =
      [alice] := by
  refine ⟨?_, ?_, ?_⟩ <;> decide

/-- C3 (amended): a registration request whose username or email already
exists inserts no row, whatever the session and the rest of the body;
and when the request passes field validation (and comes from a guest
session, as mounted) the response carries the uniqueness error
message. -/
theorem register_duplicate_no_insert (libs : Libs) (sess : Option SessionUser)
    (users : List User) (nextUid : Nat) (b : RegisterBody)
    (hdup : ∃ u ∈ users, u.username = jsTrim (jsTrim b.username) ∨
            u.email = jsTrim (libs.normalizeEmail (jsTrim b.email))) :
    (registerRoute libs sess users nextUid b).2 = users ∧
    (sess = none → registerValidationErrors libs b = [] →
      (registerRoute libs sess users nextUid b).1 =
        Resp.render 200 "register" ["Username or email already exists"]) := by
  have hany : users.any (fun u => u.username == jsTrim (jsTrim b.username) ||
      u.email == jsTrim (libs.normalizeEmail (jsTrim b.email))) = true := by
    rcases hdup with ⟨u, hu, hcase⟩
    refine List.any_eq_true.mpr ⟨u, hu, ?_⟩
    rcases hcase with h | h <;> simp [h]
  cases sess with
  | some su => exact ⟨rfl, by intro h; cases h⟩
  | none =>
    by_cases he : registerValidationErrors libs b = []
    · constructor
      · simp [registerRoute, he, hany]
      · intro _ _
        simp [registerRoute, he, hany]
    · constructor
      · simp [registerRoute, he]
      · intro _ h2
        exact absurd h2 he

/-- Witness for C3's amended theorem at a concrete duplicate
registration that passes field validation. -/
theorem register_duplicate_no_insert_witness :
    (registerRoute demoLibs none [alice] 2
      ⟨"alice", "new@example.com", "Secret1", "Secret1"⟩).2 = [alice] ∧
    (registerRoute demoLibs none [alice] 2
      ⟨"alice", "new@example.com", "Secret1", "Secret1"⟩).1 =
      Resp.render 200 "register" ["Username or email already exists"] :=
  have h := register_duplicate_no_insert demoLibs none [alice] 2
    ⟨"alice", "new@example.com", "Secret1", "Secret1"⟩
    ⟨alice, by simp, Or.inl (by decide)⟩
  ⟨h.1, h.2 rfl (by decide)⟩

/-! ## C4: login responses do not leak username existence -/

/-- C4: a login attempt with an existing username but a wrong password
produces exactly the same response as a login attempt with a username
that matches no user: the same rendered login view with the same error
message, so the two cases are indistinguishable to the client. -/
theorem login_no_username_enumeration (libs : Libs) (r₁ r₂ : Option String)
    (users₁ users₂ : List User) (b₁ b₂ : LoginBody) (u : User)
    (hv₁ : loginValidationErrors b₁ = []) (hv₂ : loginValidationErrors b₂ = [])
    (hf : findUserByUsername users₁ (jsTrim b₁.username) = some u)
    (hp : libs.bcryptCompare b₁.password u.password = false)
    (hn : findUserByUsername users₂ (jsTrim b₂.username) = none) :
    loginRoute libs none r₁ users₁ b₁ = loginRoute libs none r₂ users₂ b₂ ∧
    loginRoute libs none r₁ users₁ b₁ =
      Resp.render 200 "login" ["Invalid username or password"] := by
  have h1 : loginRoute libs none r₁ users₁ b₁ =
      Resp.render 200 "login" ["Invalid username or password"] := by
    simp [loginRoute, hv₁, hf, hp]
  have h2 : loginRoute libs none r₂ users₂ b₂ =
      Resp.render 200 "login" ["Invalid username or password"] := by
    simp [loginRoute, hv₂, hn]
  exact ⟨h1.trans h2.symm, h1⟩

/-- Witness for C4: wrong password for `alice` versus unknown user
`mallory`, both against the same concrete table. -/
theorem login_no_username_enumeration_witness :
    loginRoute demoLibs none none [alice] ⟨"alice", "wrong"⟩ =
      loginRoute demoLibs none none [alice] ⟨"mallory", "whatever"⟩ ∧
    loginRoute demoLibs none none [alice] ⟨"alice", "wrong"⟩ =
      Resp.render 200 "login" ["Invalid username or password"] :=
  login_no_username_enumeration demoLibs none none [alice] [alice]
    ⟨"alice", "wrong"⟩ ⟨"mallory", "whatever"⟩ alice
    (by decide) (by decide) (by decide) (by decide) (by decide)

/-! ## C5: the end-date-after-start-date rule -/

/-- The end-date message occurs in the accumulated validation errors
exactly when the end-date chain raised it: no other chain produces this
message. -/
lemma endDateMsg_mem_iff (b : ProjectBody) :
    ("End date must be after start date" ∈ projectValidationErrors b) ↔
    ("End date must be after start date" ∈ endDateErrors b) := by
  unfold projectValidationErrors
  split_ifs <;> simp [List.mem_append]

/-- C5: for a project body carrying a start date, validation raises the
end-date error exactly when an end date is present and not strictly
later than the start date; a body without an end date never receives
this error; and whenever the error is raised, the creation handler
re-renders the form and inserts no row. -/
theorem end_date_validation_rule (b : ProjectBody) (s : Int)
    (hs : b.start_date = some s) :
    (∀ e, b.end_date = some e →
      ("End date must be after start date" ∈ projectValidationErrors b ↔ e ≤ s)) ∧
    (b.end_date = none →
      "End date must be after start date" ∉ projectValidationErrors b) ∧
    (∀ e, b.end_date = some e → e ≤ s → ∀ ps uid npid,
      addProjectHandler ps uid npid b =
        (Resp.render 200 "add-project" (projectValidationErrors b), ps)) := by
  refine ⟨?_, ?_, ?_⟩
  · intro e he
    rw [endDateMsg_mem_iff]
    unfold endDateErrors
    rw [he, hs]
    by_cases hle : e ≤ s <;> simp [hle]
  · intro he
    rw [endDateMsg_mem_iff]
    unfold endDateErrors
    rw [he]
    simp
  · intro e he hle ps uid npid
    have hmem : "End date must be after start date" ∈ projectValidationErrors b := by
      rw [endDateMsg_mem_iff]
      unfold endDateErrors
      rw [he, hs]
      simp [hle]
    have hne : projectValidationErrors b ≠ [] := List.ne_nil_of_mem hmem
    simp [addProjectHandler, hne]

/-- Witness for C5 at a concrete body whose end date equals its start
date: the rule rejects, and the creation handler inserts nothing. -/
theorem end_date_validation_rule_witness :
    ("End date must be after start date" ∈ projectValidationErrors
      ⟨"Valid Title", "A long enough description", some 10, some 10, "design"⟩) ∧
    (addProjectHandler [] 1 1
      ⟨"Valid Title", "A long enough description", some 10, some 10, "design"⟩).2 = [] :=
  have h := end_date_validation_rule
    ⟨"Valid Title", "A long enough description", some 10, some 10, "design"⟩ 10 rfl
  ⟨(h.1 10 rfl).mpr (by decide),
   by rw [(h.2.2 10 rfl (by decide) [] 1 1)]⟩

/-! ## C6: short usernames are rejected with the 3-50 bound message -/

/-- C6: a POST `/register` whose (trimmed) username has fewer than 3
characters inserts no row, and the rendered error list contains the
message stating the 3-50 character bound. -/
theorem register_short_username_rejected (libs : Libs) (users : List User)
    (nextUid : Nat) (b : RegisterBody) (h : (jsTrim b.username).length < 3) :
    (registerRoute libs none users nextUid b).2 = users ∧
    ∃ errs, (registerRoute libs none users nextUid b).1 =
        Resp.render 200 "register" errs ∧
      "Username must be between 3 and 50 characters" ∈ errs := by
  have hmem : "Username must be between 3 and 50 characters" ∈
      registerValidationErrors libs b := by
    unfold registerValidationErrors
    have hcond : ¬ (3 ≤ (jsTrim b.username).length ∧ (jsTrim b.username).length ≤ 50) := by
      omega
    simp [hcond]
  have hne : registerValidationErrors libs b ≠ [] := List.ne_nil_of_mem hmem
  refine ⟨?_, registerValidationErrors libs b, ?_, hmem⟩
  · simp [registerRoute, hne]
  · simp [registerRoute, hne]

/-- Witness for C6 at the spec's concrete username `ab`. -/
theorem register_short_username_rejected_witness :
    (registerRoute demoLibs none [] 1
      ⟨"ab", "ab@example.com", "Secret1", "Secret1"⟩).2 = [] ∧
    ∃ errs, (registerRoute demoLibs none [] 1
        ⟨"ab", "ab@example.com", "Secret1", "Secret1"⟩).1 =
        Resp.render 200 "register" errs ∧
      "Username must be between 3 and 50 characters" ∈ errs :=
  register_short_username_rejected demoLibs [] 1
    ⟨"ab", "ab@example.com", "Secret1", "Secret1"⟩ (by decide)

/-! ## C7: project detail reads -/

/-- C7 counterexample: GET `/api/projects/:id` does not return the
project to every session.  An anonymous request is redirected to
`/login` by `requireAuth`, and an authenticated non-owner receives a
404, because the route's query filters on `pid = ? AND uid = ?`. -/
theorem api_project_read_counterexample :
    apiGetProject none [projAlice] 1 = Resp.redirect "/login" ∧
    apiGetProject (some ⟨2, "bob", "bob@example.com"⟩) [projAlice] 1 =
      Resp.jsonError 404 "Project not found" ∧
    apiGetProject none [projAlice] 1 ≠ Resp.jsonProject projAlice := by
  refine ⟨?_, ?_, ?_⟩ <;> decide

/-- C7 (amended): GET `/project/:id` returns the project's data to any
session, anonymous included, with neither authentication nor ownership
required; GET `/api/projects/:id` instead requires an authenticated
session and returns the project only to its owner, answering 404 to
any other authenticated session and redirecting anonymous sessions to
`/login`. -/
theorem project_read_access (users : List User) (ps : List Project) (pid : Nat) :
    (∀ sess p u, ps.find? (fun q => q.pid == pid) = some p →
      users.find? (fun v => v.uid == p.uid) = some u →
      getProjectPublic users ps sess pid =
        Resp.renderProject 200 "project-details" p u.username u.email
          (match sess with
           | some su => su.uid == p.uid
           | none => false)) ∧
    (apiGetProject none ps pid = Resp.redirect "/login") ∧
    (∀ su p, ps.find? (fun q => q.pid == pid && q.uid == su.uid) = some p →
      apiGetProject (some su) ps pid = Resp.jsonProject p) ∧
    (∀ su, ps.find? (fun q => q.pid == pid && q.uid == su.uid) = none →
      apiGetProject (some su) ps pid = Resp.jsonError 404 "Project not found") := by
  refine ⟨?_, rfl, ?_, ?_⟩
  · intro sess p u hp hu
    simp [getProjectPublic, hp, hu]
  · intro su p hp
    simp [apiGetProject, hp]
  · intro su hp
    simp [apiGetProject, hp]

/-- Witness for C7's amended theorem: the public detail page serves the
project to an anonymous session, and the API serves it to its owner. -/
theorem project_read_access_witness :
    getProjectPublic [alice] [projAlice] none 1 =
      Resp.renderProject 200 "project-details" projAlice "alice"
        "alice@example.com" false ∧
    apiGetProject (some ⟨1, "alice", "alice@example.com"⟩) [projAlice] 1 =
      Resp.jsonProject projAlice :=
  ⟨(project_read_access [alice] [projAlice] 1).1 none projAlice alice
      (by decide) (by decide),
   (project_read_access [alice] [projAlice] 1).2.2.1
      ⟨1, "alice", "alice@example.com"⟩ projAlice (by decide)⟩

/-! ## C8: the fixed-window rate limiter -/

/-- C8: one request through the `authRateLimit` middleware is rejected
exactly when the caller's address holds an entry that is still inside
the window and has reached the configured maximum; a rejected request
carries the retry-after hint computed from the window remainder and
leaves the entry untouched (so every further request inside the window
is rejected the same way); and an entry whose window has rolled over is
evicted and the request passes. -/
theorem rate_limiter_fixed_window (maxAttempts windowMs : Nat)
    (attempts : AttemptMap) (ip : String) (now : Nat) (isJson : Bool)
    (hnd : (attempts.map Prod.fst).Nodup) :
    ((∃ t, (authRateLimitStep maxAttempts windowMs attempts ip now isJson).1 =
        RLDecision.blocked isJson t) ↔
      (∃ e, attempts.lookup ip = some e ∧ now - e.firstAttempt ≤ windowMs ∧
        maxAttempts ≤ e.count)) ∧
    (∀ e, attempts.lookup ip = some e → now - e.firstAttempt ≤ windowMs →
      maxAttempts ≤ e.count →
      authRateLimitStep maxAttempts windowMs attempts ip now isJson =
        (RLDecision.blocked isJson
          (jsCeilMinutes (windowMs - (now - e.firstAttempt))),
         cleanupAttempts windowMs now attempts) ∧
      (cleanupAttempts windowMs now attempts).lookup ip = some e) ∧
    (∀ e, attempts.lookup ip = some e → windowMs < now - e.firstAttempt →
      (authRateLimitStep maxAttempts windowMs attempts ip now isJson).1 =
        RLDecision.allowed ∧
      ((authRateLimitStep maxAttempts windowMs attempts ip now isJson).2).lookup ip =
        none) := by
  have hcl : (cleanupAttempts windowMs now attempts).lookup ip =
      match attempts.lookup ip with
      | some v => if now - v.firstAttempt ≤ windowMs then some v else none
      | none => none := by
    unfold cleanupAttempts
    rw [lookup_filter_nodup hnd (fun kv => decide (now - kv.2.firstAttempt ≤ windowMs)) ip]
    rcases attempts.lookup ip with _ | v
    · rfl
    · simp
  refine ⟨?_, ?_, ?_⟩
  · rcases hlk : attempts.lookup ip with _ | e
    · simp only [hlk] at hcl
      simp only [authRateLimitStep, hcl]
      simp
    · simp only [hlk] at hcl
      by_cases hw : now - e.firstAttempt ≤ windowMs
      · rw [if_pos hw] at hcl
        by_cases hc : maxAttempts ≤ e.count
        · simp only [authRateLimitStep, hcl]
          simp [hw, hc]
          omega
        · simp only [authRateLimitStep, hcl]
          simp [hw, hc]
      · rw [if_neg hw] at hcl
        simp only [authRateLimitStep, hcl]
        simp [hw]
        omega
  · intro e hlk hw hc
    simp only [hlk] at hcl
    rw [if_pos hw] at hcl
    constructor
    · simp only [authRateLimitStep, hcl]
      simp [hc]
    · exact hcl
  · intro e hlk hw
    have hw' : ¬ (now - e.firstAttempt ≤ windowMs) := by omega
    simp only [hlk] at hcl
    rw [if_neg hw'] at hcl
    constructor
    · simp only [authRateLimitStep, hcl]
    · simp only [authRateLimitStep, hcl]

/-- Witness for C8: an address that produced 5 failed attempts at time 0
is rejected one minute later with a 14-minute retry hint, and passes
again once the 15-minute window has rolled over. -/
theorem rate_limiter_fixed_window_witness :
    authRateLimitStep 5 900000 [("1.2.3.4", ⟨5, 0⟩)] "1.2.3.4" 60000 true =
      (RLDecision.blocked true 14, [("1.2.3.4", ⟨5, 0⟩)]) ∧
    (authRateLimitStep 5 900000 [("1.2.3.4", ⟨5, 0⟩)] "1.2.3.4" 1000000 true).1 =
      RLDecision.allowed := by
  constructor
  · have h := ((rate_limiter_fixed_window 5 900000 [("1.2.3.4", ⟨5, 0⟩)]
      "1.2.3.4" 60000 true (by decide)).2.1 ⟨5, 0⟩ (by decide) (by decide)
      (by decide)).1
    rw [h]
    decide
  · exact ((rate_limiter_fixed_window 5 900000 [("1.2.3.4", ⟨5, 0⟩)]
      "1.2.3.4" 1000000 true (by decide)).2.2 ⟨5, 0⟩ (by decide) (by decide)).1

/-! ## C9: idempotence of the schema bootstrap -/

/-- C9: running `setupDatabase` against a store in which the database,
its two tables and at least one user row already exist changes
nothing: no table is dropped or altered and no row is touched. -/
theorem schema_bootstrap_idempotent (store : Store) (name hashed : String)
    (db : DbState) (us : List User) (ps : List Project)
    (hnd : (store.map Prod.fst).Nodup)
    (h1 : store.lookup name = some db) (h2 : db.users = some us)
    (h3 : db.projects = some ps) (h4 : us ≠ []) :
    setupDatabase store name hashed = store := by
  have hens : ensureProjectsTable (ensureUsersTable db) = db := by
    unfold ensureUsersTable ensureProjectsTable
    rw [h2]
    simp only []
    rw [h3]
  have hcd : createDatabase store name = store := by
    unfold createDatabase
    rw [h1]
  have hct : createTables store name = store := by
    unfold createTables
    refine map_eq_self_of_fixed ?_
    intro kv hkv
    obtain ⟨k1, k2⟩ := kv
    by_cases hk : k1 = name
    · have hv : k2 = db := lookup_unique hnd h1 (k1, k2) hkv hk
      rw [if_pos hk, hv, hens]
    · rw [if_neg hk]
  have hcs : addSampleData store name hashed = store := by
    unfold addSampleData
    rw [h1]
    simp only []
    rw [h2]
    have hpos : 0 < us.length := List.length_pos.mpr h4
    simp [hpos]
  unfold setupDatabase
  rw [hcd, hct, hcs]

/-- Witness for C9 at a concrete already-initialized store. -/
theorem schema_bootstrap_idempotent_witness :
    setupDatabase [("project_manager", ⟨some [alice], some [projAlice]⟩)]
      "project_manager" "h" =
      [("project_manager", ⟨some [alice], some [projAlice]⟩)] :=
  schema_bootstrap_idempotent
    [("project_manager", ⟨some [alice], some [projAlice]⟩)]
    "project_manager" "h" ⟨some [alice], some [projAlice]⟩ [alice] [projAlice]
    (by decide) (by decide) rfl rfl (by decide)

/-! ## C10: the per-user project cap -/

/-- C10: the `maxProjectsPerUser` guard rejects an authenticated
creation request exactly when the user already owns `maxProjects`
projects or more — with a 400 JSON body or a dashboard redirect
carrying an error message — and passes it through below the limit; a
creation step running behind the guard therefore never pushes a count
that was at most 50 beyond 50. -/
theorem max_projects_cap (su : SessionUser) (count : Nat) (isJson : Bool) :
    (maxProjects ≤ count →
      maxProjectsPerUser (some su) count isJson =
        (if isJson then
          GuardResult.blockedJson 400 s!"Maximum number of projects ({maxProjects}) reached"
         else
          GuardResult.blockedRedirect "/dashboard"
            s!"You have reached the maximum number of projects ({maxProjects}).") ∧
      maxProjectsPerUser (some su) count isJson ≠ GuardResult.next) ∧
    (count < maxProjects →
      maxProjectsPerUser (some su) count isJson = GuardResult.next) ∧
    (count ≤ maxProjects →
      guardedAddProject (some su) count isJson ≤ maxProjects) := by
  refine ⟨?_, ?_, ?_⟩
  · intro h
    constructor
    · simp [maxProjectsPerUser, h]
    · cases isJson <;> simp [maxProjectsPerUser, h]
  · intro h
    have h' : ¬ maxProjects ≤ count := by omega
    simp [maxProjectsPerUser, h']
  · intro h
    unfold guardedAddProject
    by_cases hge : maxProjects ≤ count
    · have hc : maxProjectsPerUser (some su) count isJson ≠ GuardResult.next := by
        cases isJson <;> simp [maxProjectsPerUser, hge]
      rcases hg : maxProjectsPerUser (some su) count isJson with _ | _ | _
      · exact absurd hg hc
      · exact h
      · exact h
    · have h'' : ¬ maxProjects ≤ count := hge
      simp [maxProjectsPerUser, h'']
      omega

/-- Witness for C10 at the cap boundary: 50 projects block further
creation (JSON and redirect forms), 49 pass, and a guarded creation
step at 50 leaves the count at 50. -/
theorem max_projects_cap_witness :
    maxProjectsPerUser (some ⟨1, "alice", "alice@example.com"⟩) 50 true =
      GuardResult.blockedJson 400 "Maximum number of projects (50) reached" ∧
    maxProjectsPerUser (some ⟨1, "alice", "alice@example.com"⟩) 49 true =
      GuardResult.next ∧
    guardedAddProject (some ⟨1, "alice", "alice@example.com"⟩) 50 true ≤ 50 := by
  refine ⟨?_, ?_, ?_⟩
  · have h := ((max_projects_cap ⟨1, "alice", "alice@example.com"⟩ 50 true).1
      (by decide)).1
    rw [h]
    decide
  · exact (max_projects_cap ⟨1, "alice", "alice@example.com"⟩ 49 true).2.1 (by decide)
  · exact (max_projects_cap ⟨1, "alice", "alice@example.com"⟩ 50 true).2.2 (by decide)

end PMApp
